import Mathlib

/-!
Shallow embedding of the coordination layer of `object_detection_gui.py`
(class `YOLOv7GUI`): the UI state and its controls, the reset logic, the
responsive image rendering (`update_label_image`, which calls PIL's
`Image.thumbnail`), the detection trigger (`start_detection_thread`), the
background worker (`detect_objects`), artifact discovery
(`find_latest_run_output`) and the UI hand-off
(`update_gui_post_detection`).

External effects are modelled explicitly:
  * the filesystem is a predicate `path_exists : String → Bool` plus the
    listing (with modification times) of the run output directory;
  * the subprocess run is a `RunResult` (either a completed process with
    exit code / stdout / stderr, or an exception raised by
    `subprocess.run`, as caught by the two `except` clauses);
  * `root.after 0 f args` calls scheduled by the worker onto the Tk main
    thread are a list of `UiEvent`s, in scheduling order;
  * modal `messagebox` dialogs are `Notification` values.
Paths follow POSIX conventions (`os.path.join` with `/`,
`os.path.basename` as the part after the last `/`).
-/

/-- Result of `os.path.basename` for POSIX paths: the suffix after the
last `/` (the whole string when there is no `/`, empty for a trailing
`/`, exactly as in Python). -/
def basename (p : String) : String :=
  String.mk ((p.data.reverse.takeWhile (fun c => c ≠ '/')).reverse)

/-- `os.path.join a b` for POSIX paths (assuming, as everywhere in the
GUI, that `a` is nonempty and has no trailing separator). -/
def pjoin (a b : String) : String :=
  a ++ "/" ++ b

/-- Python `str.splitlines` restricted to `\n` line endings: split on
`\n` and drop the trailing empty piece produced by a final newline
(`"".splitlines() == []`). -/
def splitlines (s : String) : List String :=
  let parts := s.splitOn "\n"
  if parts.getLastD "" = "" then parts.dropLast else parts

/-- Python slicing `l[-n:]`: the last at most `n` elements. -/
def lastN (n : Nat) (l : List α) : List α :=
  l.drop (l.length - n)

/-- A decoded image (`PIL.Image` as far as the GUI observes it): its pixel
dimensions. -/
structure Img where
  width : Nat
  height : Nat
deriving DecidableEq, Repr

/-- A rendered bitmap (`ImageTk.PhotoImage` as far as the GUI observes
it): its pixel dimensions. -/
structure Bitmap where
  width : Nat
  height : Nat
deriving DecidableEq, Repr

/-- The two attributes the code stores on each display label:
`label.image` (the rendered `PhotoImage`) and `label.original_image`
(the unscaled decoded image). -/
structure Slot where
  image : Option Bitmap
  original_image : Option Img
deriving DecidableEq, Repr

/-- An empty display slot (`label.config(image="")`, both references
set to `None`). -/
def emptySlot : Slot :=
  { image := none, original_image := none }

/-- Tk widget state: `tk.NORMAL` / `tk.DISABLED`. -/
inductive BState where
  | normal
  | disabled
deriving DecidableEq, Repr

/-- The mutable UI-visible state of the `YOLOv7GUI` instance: the
remembered source path, the info label text, the three buttons and the
two display panels. -/
structure GuiState where
  input_image_path : Option String
  info_label : String
  detect_button : BState
  browse_button : BState
  reset_button : BState
  input_slot : Slot
  result_slot : Slot
deriving DecidableEq, Repr

/-- The two display panels (original image on the left, detection result
on the right). -/
inductive Panel where
  | input
  | result
deriving DecidableEq, Repr

/-- Read the slot of a panel. -/
def getSlot (s : GuiState) : Panel → Slot
  | .input => s.input_slot
  | .result => s.result_slot

/-- Write the slot of a panel. -/
def setSlot (s : GuiState) (p : Panel) (sl : Slot) : GuiState :=
  match p with
  | .input => { s with input_slot := sl }
  | .result => { s with result_slot := sl }

/-- Kind of a modal `messagebox` dialog shown by the GUI. -/
inductive NotifKind where
  | error
  | warning
deriving DecidableEq, Repr

/-- A modal `messagebox.showerror` / `messagebox.showwarning` dialog. -/
structure Notification where
  kind : NotifKind
  title : String
  message : String
deriving DecidableEq, Repr

/-- `YOLOv7GUI.reset_ui(clear_input)`, translated line by line.  When
`clear_input` is true it forgets the source path, restores the initial
info text, empties the input panel and disables the detect button; in
every case it empties the result panel, re-enables browse and reset, and
finally re-enables detect when `clear_input` is false and a source path
is still remembered (Python truthiness of `self.input_image_path`). -/
def reset_ui (s : GuiState) (clear_input : Bool) : GuiState :=
  let s :=
    if clear_input then
      { s with input_image_path := none,
               info_label := "Select an image to begin detection.",
               input_slot := emptySlot,
               detect_button := BState.disabled }
    else s
  let s := { s with result_slot := emptySlot,
                    browse_button := BState.normal,
                    reset_button := BState.normal }
  if clear_input = false ∧ s.input_image_path.isSome then
    { s with detect_button := BState.normal }
  else s

/-- `PIL.Image.thumbnail`'s `round_aspect` helper:
`max(min(math.floor(number), math.ceil(number), key=key), 1)`.
Python's two-argument `min` with a key returns the first argument on
ties, so the ceiling is chosen exactly when its key is strictly
smaller. -/
def round_aspect (q : ℚ) (key : ℕ → ℚ) : ℕ :=
  let f := (⌊q⌋).toNat
  let c := (⌈q⌉).toNat
  max (if key c < key f then c else f) 1

/-- The size computation of `PIL.Image.thumbnail((x, y))` on an image of
size `w × h` (real arithmetic modelled by `ℚ`): if the image already
fits in the box it is left untouched; otherwise the dimension that is
proportionally too large is derived from the other via the aspect ratio
`w / h`, rounded to the nearest integer matching the ratio and clamped
to at least 1. -/
def thumbnail_size (w h x y : ℕ) : ℕ × ℕ :=
  if w ≤ x ∧ h ≤ y then (w, h)
  else
    let aspect : ℚ := (w : ℚ) / (h : ℚ)
    if aspect ≤ (x : ℚ) / (y : ℚ) then
      (round_aspect ((y : ℚ) * aspect) (fun n => |aspect - (n : ℚ) / (y : ℚ)|), y)
    else
      (x, round_aspect ((x : ℚ) / aspect)
            (fun n => if n = 0 then 0 else |aspect - (x : ℚ) / (n : ℚ)|))

/-- `YOLOv7GUI.update_label_image(label)` with the label's container
measuring `width × height`: a no-op when the label holds no original
image or either dimension is below 20; otherwise it renders a copy of
the original scaled by `thumbnail((width - 10, height - 10))` into the
label's `image` attribute. -/
def update_label_image (slot : Slot) (width height : Nat) : Slot :=
  match slot.original_image with
  | none => slot
  | some orig =>
    if width < 20 ∨ height < 20 then slot
    else
      let sz := thumbnail_size orig.width orig.height (width - 10) (height - 10)
      { slot with image := some { width := sz.1, height := sz.2 } }

/-- Result of `PILImage.open` as observed through the two `except`
clauses of `display_flexible_image`: success, `FileNotFoundError`, or
any other exception (with its message). -/
inductive LoadResult where
  | ok (img : Img)
  | notFound
  | failed (emsg : String)
deriving Repr

/-- Environment of the UI-thread operations: the image decoder and the
current sizes of the two panels' content frames (read by
`update_label_image` via `container.winfo_width/height`). -/
structure UiEnv where
  load : String → LoadResult
  input_panel_width : Nat
  input_panel_height : Nat
  result_panel_width : Nat
  result_panel_height : Nat

/-- Width of a panel's content frame. -/
def panelWidth (env : UiEnv) : Panel → Nat
  | .input => env.input_panel_width
  | .result => env.result_panel_width

/-- Height of a panel's content frame. -/
def panelHeight (env : UiEnv) : Panel → Nat
  | .input => env.input_panel_height
  | .result => env.result_panel_height

/-- `YOLOv7GUI.display_flexible_image(image_path, label)`: clear the
label's references, decode the image, store the original and render it
once; on `FileNotFoundError` or any other exception, show an error
dialog and call `reset_ui()` (with its default `clear_input=True`). -/
def display_flexible_image (env : UiEnv) (image_path : String) (p : Panel)
    (s : GuiState) : GuiState × List Notification :=
  let s := setSlot s p emptySlot
  match env.load image_path with
  | .ok orig =>
      let s := setSlot s p { image := none, original_image := some orig }
      (setSlot s p (update_label_image (getSlot s p) (panelWidth env p) (panelHeight env p)),
       [])
  | .notFound =>
      (reset_ui s true,
       [{ kind := .error, title := "Error",
          message := "Image file not found: " ++ image_path }])
  | .failed emsg =>
      (reset_ui s true,
       [{ kind := .error, title := "Image Loading Error",
          message := "Could not load image: " ++ image_path ++ "\nError: " ++ emsg }])

/-- `YOLOv7GUI.update_gui_post_detection(output_path, success)` (runs on
the main thread): on success with a path, set the info text and display
the result image; otherwise set the failure text and clear the result
panel.  In both branches it then re-enables browse and reset, and
re-enables detect exactly when a source path is still remembered. -/
def update_gui_post_detection (env : UiEnv) (output_path : Option String)
    (success : Bool) (s : GuiState) : GuiState × List Notification :=
  let r :=
    match success, output_path with
    | true, some p =>
        let s := { s with info_label := "Detection complete. Result: " ++ basename p }
        display_flexible_image env p .result s
    | _, _ =>
        ({ s with info_label := "Detection failed or output not found.",
                  result_slot := emptySlot },
         ([] : List Notification))
  let s1 := r.1
  (⟨s1.input_image_path, s1.info_label,
    if s1.input_image_path.isSome then BState.normal else BState.disabled,
    BState.normal, BState.normal, s1.input_slot, s1.result_slot⟩,
   r.2)

/-- Filesystem facts consulted by `check_yolov7_setup`:
`os.path.isdir(self.yolov7_dir)`, `os.path.isfile(detect_script)` and
`os.path.isfile(self.weights_path)`. -/
structure SetupEnv where
  yolov7_dir_isdir : Bool
  detect_script_isfile : Bool
  weights_isfile : Bool

/-- `YOLOv7GUI.check_yolov7_setup()`: warn and report failure when the
tool directory or `detect.py` is missing; a missing weights file only
produces a warning (the check still succeeds). -/
def check_yolov7_setup (env : SetupEnv) (yolov7_dir : String) :
    Bool × List Notification :=
  if env.yolov7_dir_isdir = false then
    (false,
     [{ kind := .warning, title := "Setup Warning",
        message := "YOLOv7 directory not found at: " ++ yolov7_dir ++
          "\nPlease ensure the \x27yolov7\x27 folder is in the same directory as this script, or modify the \x27self.yolov7_dir\x27 path in the code.\nDetection will likely fail." }])
  else if env.detect_script_isfile = false then
    (false,
     [{ kind := .warning, title := "Setup Warning",
        message := "YOLOv7 \x27detect.py\x27 script not found in: " ++ yolov7_dir ++
          "\nDetection will not work." }])
  else if env.weights_isfile = false then
    (true,
     [{ kind := .warning, title := "Setup Warning",
        message := "Default weights file \x27yolov7.pt\x27 not found in: " ++ yolov7_dir ++
          "\nDetection requires weights. You might need to download them (e.g., yolov7.pt)." }])
  else (true, [])

/-- Environment of `start_detection_thread`: the setup facts plus
`os.path.exists` for the selected source file. -/
structure StartEnv where
  setup : SetupEnv
  file_exists : String → Bool

/-- `YOLOv7GUI.start_detection_thread()`.  Returns the UI state at the
moment `thread.start()` would execute, whether the worker thread was
started, and the modal dialogs shown synchronously.  The guards (no
valid source path; failing setup re-check) return before any UI state is
touched.  When the guards pass, the three buttons are disabled, the info
text is set and the result panel is cleared strictly before the thread
is started. -/
def start_detection_thread (env : StartEnv) (yolov7_dir : String)
    (s : GuiState) : GuiState × Bool × List Notification :=
  match s.input_image_path with
  | none =>
      (s, false,
       [{ kind := .error, title := "Error",
          message := "No valid image selected or file not found." }])
  | some p =>
      if env.file_exists p = false then
        (s, false,
         [{ kind := .error, title := "Error",
            message := "No valid image selected or file not found." }])
      else
        let chk := check_yolov7_setup env.setup yolov7_dir
        if chk.1 = false then (s, false, chk.2)
        else
          ({ s with detect_button := BState.disabled,
                    browse_button := BState.disabled,
                    reset_button := BState.disabled,
                    info_label := "Detecting objects, please wait...",
                    result_slot := emptySlot },
           true, chk.2)

/-- Outcome of `subprocess.run(command, ...)` inside the `try` block of
`detect_objects`: a completed process (exit code, captured stdout and
stderr), a `FileNotFoundError`, or any other exception (type name and
message), matching the two `except` clauses. -/
inductive RunResult where
  | completed (returncode : Int) (stdout stderr : String)
  | fileNotFound (emsg : String)
  | unexpected (ename emsg : String)
deriving Repr

/-- Environment of the background worker: the subprocess outcome,
`os.path.exists`, `sys.executable`, and what `find_latest_run_output`
sees of the run output directory — `none` when `os.listdir(project_dir)`
(or a later call) raises, otherwise the joined paths of the
subdirectories in listing order, each with its modification time. -/
structure DetectEnv where
  run_result : RunResult
  path_exists : String → Bool
  python_executable : String
  subdirs : Option (List (String × Int))

/-- Python `max(sub_dirs, key=os.path.getmtime)` over a nonempty list:
the first element whose modification time is maximal (a later element
replaces the current best only when strictly newer). -/
def pymaxMtime (hd : String × Int) (tl : List (String × Int)) : String × Int :=
  tl.foldl (fun best d => if best.2 < d.2 then d else best) hd

/-- `YOLOv7GUI.find_latest_run_output(project_dir, image_name)`: `None`
when listing raised or there is no subdirectory; otherwise probe the
most-recently-modified subdirectory for `image_name` and return the path
only if it exists. -/
def find_latest_run_output (env : DetectEnv) (image_name : String) :
    Option String :=
  match env.subdirs with
  | none => none
  | some [] => none
  | some (hd :: tl) =>
      let latest_dir := pymaxMtime hd tl
      let potential_output := pjoin latest_dir.1 image_name
      if env.path_exists potential_output then some potential_output else none

/-- A call the worker schedules on the Tk main thread with
`self.root.after(0, ...)`: either a modal error dialog or
`update_gui_post_detection(path, success)`. -/
inductive UiEvent where
  | showError (title message : String)
  | postDetection (output_path : Option String) (success : Bool)
deriving DecidableEq, Repr

/-- The error dialog text built for a non-zero exit code: it embeds the
exit code and, when stderr is nonempty, the last (at most) 5 lines of
stderr joined by spaces (`' '.join(result.stderr.splitlines()[-5:])`). -/
def detectionErrorMessage (returncode : Int) (stderr : String) : String :=
  "Object detection failed (detect.py exited with code " ++ toString returncode ++
    ").\n\n" ++ "Check console/terminal output for details.\n" ++
    (if stderr = "" then ""
     else "\nError details:\n" ++ String.intercalate " " (lastN 5 (splitlines stderr)))

/-- The error dialog text when neither the deterministic nor the
fallback output path yields the artifact. -/
def outputNotFoundMessage (output_path project_dir : String) : String :=
  "Output image could not be found.\nExpected: " ++ output_path ++
    "\nAlso checked latest runs in: " ++ project_dir

/-- The error dialog text of the `FileNotFoundError` handler. -/
def fileNotFoundMessage (emsg python_executable yolov7_dir : String) : String :=
  "File not found during detection: " ++ emsg ++ ".\n" ++
    "Ensure \x27" ++ python_executable ++
    "\x27 is runnable and \x27detect.py\x27 exists in " ++ yolov7_dir ++ "."

/-- The error dialog text of the generic exception handler. -/
def unexpectedErrorMessage (ename emsg : String) : String :=
  "An unexpected error occurred during detection:\n" ++ ename ++ ": " ++ emsg

/-- `YOLOv7GUI.detect_objects()` (the background worker), as the ordered
list of calls it schedules on the main thread.  A non-zero exit code
schedules only the error dialog and returns.  On exit code 0 the
deterministic path `project_dir/GUI_exp/<basename(source)>` is probed
first, then the fallback `find_latest_run_output`; if both fail, an
error dialog and `update_gui_post_detection(None, False)` are scheduled.
Each `except` clause schedules its dialog followed by
`update_gui_post_detection(None, False)`. -/
def detect_objects (env : DetectEnv) (input_image_path yolov7_dir : String) :
    List UiEvent :=
  let image_name := basename input_image_path
  let project_dir := pjoin (pjoin yolov7_dir "runs") "detect"
  let experiment_name := "GUI_exp"
  match env.run_result with
  | .completed returncode _ stderr =>
      if returncode ≠ 0 then
        [.showError "Detection Error" (detectionErrorMessage returncode stderr)]
      else
        let output_path := pjoin (pjoin project_dir experiment_name) image_name
        if env.path_exists output_path then
          [.postDetection (some output_path) true]
        else
          match find_latest_run_output env image_name with
          | some latest_run_path =>
              if env.path_exists latest_run_path then
                [.postDetection (some latest_run_path) true]
              else
                [.showError "Error" (outputNotFoundMessage output_path project_dir),
                 .postDetection none false]
          | none =>
              [.showError "Error" (outputNotFoundMessage output_path project_dir),
               .postDetection none false]
  | .fileNotFound emsg =>
      [.showError "Execution Error"
         (fileNotFoundMessage emsg env.python_executable yolov7_dir),
       .postDetection none false]
  | .unexpected ename emsg =>
      [.showError "Execution Error" (unexpectedErrorMessage ename emsg),
       .postDetection none false]

/-- Apply one scheduled call on the main thread: an error dialog leaves
the UI state untouched (it only blocks), `postDetection` runs
`update_gui_post_detection`. -/
def apply_ui_event (env : UiEnv) (s : GuiState) :
    UiEvent → GuiState × List Notification
  | .showError t m => (s, [{ kind := .error, title := t, message := m }])
  | .postDetection p ok => update_gui_post_detection env p ok s

/-- Drain the scheduled calls in order on the main thread, collecting
the dialogs shown. -/
def run_ui_events (env : UiEnv) (s : GuiState) :
    List UiEvent → GuiState × List Notification
  | [] => (s, [])
  | e :: es =>
      let r := apply_ui_event env s e
      let r2 := run_ui_events env r.1 es
      (r2.1, r.2 ++ r2.2)

/-- A concrete `ImageSelected` UI state: a source image is remembered
and displayed, all three buttons enabled, result panel empty. -/
def selectedState : GuiState :=
  { input_image_path := some "/tmp/cat.jpg",
    info_label := "Selected: cat.jpg",
    detect_button := BState.normal,
    browse_button := BState.normal,
    reset_button := BState.normal,
    input_slot := { image := none, original_image := some { width := 640, height := 480 } },
    result_slot := emptySlot }

/-- A concrete trigger environment in which every guard passes: the
source file exists and the setup check succeeds. -/
def startEnvOk : StartEnv :=
  { setup := { yolov7_dir_isdir := true, detect_script_isfile := true,
               weights_isfile := true },
    file_exists := fun _ => true }

/-- A concrete worker environment in which `detect.py` exits with code 1
and writes two lines to stderr. -/
def failRunEnv : DetectEnv :=
  { run_result := RunResult.completed 1 "" "Traceback\nRuntimeError: boom",
    path_exists := fun _ => false,
    python_executable := "python3",
    subdirs := some [] }

/-- A concrete UI-thread environment (panel sizes, image decoder). -/
def uiEnvStd : UiEnv :=
  { load := fun _ => LoadResult.notFound,
    input_panel_width := 400, input_panel_height := 300,
    result_panel_width := 400, result_panel_height := 300 }

/-- Claim C8: reset-with-clear returns the session to `Idle` — source
path forgotten, both panels empty, detect disabled, browse and reset
enabled — while reset-without-clear keeps the source path and the input
panel untouched and clears only the result panel. -/
theorem reset_ui_clears_session (s : GuiState) :
    ((reset_ui s true).input_image_path = none ∧
     (reset_ui s true).input_slot = emptySlot ∧
     (reset_ui s true).result_slot = emptySlot ∧
     (reset_ui s true).detect_button = BState.disabled ∧
     (reset_ui s true).browse_button = BState.normal ∧
     (reset_ui s true).reset_button = BState.normal) ∧
    ((reset_ui s false).input_image_path = s.input_image_path ∧
     (reset_ui s false).input_slot = s.input_slot ∧
     (reset_ui s false).result_slot = emptySlot) := by
  constructor
  · simp [reset_ui]
  · unfold reset_ui
    simp only [Bool.false_eq_true, if_false, if_true]
    split <;> simp

/-- Claim C6: when the container's width or height is below the
20-pixel threshold, `update_label_image` leaves the display slot
entirely unchanged (no new bitmap, no cleared bitmap, no exception). -/
theorem update_label_image_small_noop (slot : Slot) (width height : Nat)
    (h : width < 20 ∨ height < 20) :
    update_label_image slot width height = slot := by
  unfold update_label_image
  cases horig : slot.original_image with
  | none => rfl
  | some orig => simp [h]

theorem update_label_image_small_noop_witness :
    ((10 : Nat) < 20 ∨ (300 : Nat) < 20) ∧
    update_label_image emptySlot 10 300 = emptySlot :=
  ⟨Or.inl (by decide),
   update_label_image_small_noop emptySlot 10 300 (Or.inl (by decide))⟩

/-- Claim C2: on exit code 0, if the deterministic path
`yolov7_dir/runs/detect/GUI_exp/<basename(source)>` exists, the worker
schedules exactly one call — the success hand-off carrying exactly that
path. -/
theorem detect_objects_exit0_deterministic (env : DetectEnv)
    (input_image_path yolov7_dir stdout stderr : String)
    (hrun : env.run_result = RunResult.completed 0 stdout stderr)
    (hex : env.path_exists
        (pjoin (pjoin (pjoin (pjoin yolov7_dir "runs") "detect") "GUI_exp")
          (basename input_image_path)) = true) :
    detect_objects env input_image_path yolov7_dir =
      [UiEvent.postDetection
        (some (pjoin (pjoin (pjoin (pjoin yolov7_dir "runs") "detect") "GUI_exp")
          (basename input_image_path))) true] := by
  unfold detect_objects
  rw [hrun]
  simp [hex]

theorem detect_objects_exit0_deterministic_witness :
    detect_objects
      { run_result := RunResult.completed 0 "" "",
        path_exists := fun _ => true,
        python_executable := "python3",
        subdirs := none } "/img/cat.jpg" "yolov7" =
      [UiEvent.postDetection
        (some (pjoin (pjoin (pjoin (pjoin "yolov7" "runs") "detect") "GUI_exp")
          (basename "/img/cat.jpg"))) true] :=
  detect_objects_exit0_deterministic _ "/img/cat.jpg" "yolov7" "" "" rfl rfl

/-- Claim C4: on a non-zero exit code the worker schedules exactly the
error dialog, whose text embeds that exit code and (for nonempty
stderr) the space-joined last at most 5 lines of stderr; the excerpt
indeed uses at most 5 lines. -/
theorem detect_objects_nonzero_exit (env : DetectEnv)
    (input_image_path yolov7_dir stdout stderr : String) (returncode : Int)
    (hrun : env.run_result = RunResult.completed returncode stdout stderr)
    (hrc : returncode ≠ 0) :
    detect_objects env input_image_path yolov7_dir =
      [UiEvent.showError "Detection Error" (detectionErrorMessage returncode stderr)] ∧
    detectionErrorMessage returncode stderr =
      "Object detection failed (detect.py exited with code " ++ toString returncode ++
        ").\n\n" ++ "Check console/terminal output for details.\n" ++
        (if stderr = "" then ""
         else "\nError details:\n" ++
           String.intercalate " " (lastN 5 (splitlines stderr))) ∧
    (lastN 5 (splitlines stderr)).length ≤ 5 := by
  refine ⟨?_, rfl, ?_⟩
  · unfold detect_objects
    rw [hrun]
    simp [hrc]
  · simp only [lastN, List.length_drop]
    omega

theorem detect_objects_nonzero_exit_witness :
    detect_objects failRunEnv "/tmp/cat.jpg" "yolov7" =
      [UiEvent.showError "Detection Error"
        (detectionErrorMessage 1 "Traceback\nRuntimeError: boom")] ∧
    detectionErrorMessage 1 "Traceback\nRuntimeError: boom" =
      "Object detection failed (detect.py exited with code " ++ toString (1 : Int) ++
        ").\n\n" ++ "Check console/terminal output for details.\n" ++
        (if ("Traceback\nRuntimeError: boom" : String) = "" then ""
         else "\nError details:\n" ++
           String.intercalate " " (lastN 5 (splitlines "Traceback\nRuntimeError: boom"))) ∧
    (lastN 5 (splitlines "Traceback\nRuntimeError: boom")).length ≤ 5 :=
  detect_objects_nonzero_exit failRunEnv "/tmp/cat.jpg" "yolov7" "" _ 1 rfl
    (by decide)

/-- Claim C9: a generic exception inside the worker's `try` block is
converted into an error dialog followed by the completion hand-off
`update_gui_post_detection(None, False)`; it never escapes and is never
dropped (the scheduled list is total and contains the hand-off). -/
theorem detect_objects_unexpected_reaches_callback (env : DetectEnv)
    (input_image_path yolov7_dir ename emsg : String)
    (hrun : env.run_result = RunResult.unexpected ename emsg) :
    detect_objects env input_image_path yolov7_dir =
      [UiEvent.showError "Execution Error" (unexpectedErrorMessage ename emsg),
       UiEvent.postDetection none false] := by
  unfold detect_objects
  rw [hrun]

theorem detect_objects_unexpected_reaches_callback_witness :
    detect_objects
      { run_result := RunResult.unexpected "ValueError" "bad tensor",
        path_exists := fun _ => false,
        python_executable := "python3",
        subdirs := none } "/img/cat.jpg" "yolov7" =
      [UiEvent.showError "Execution Error"
        (unexpectedErrorMessage "ValueError" "bad tensor"),
       UiEvent.postDetection none false] :=
  detect_objects_unexpected_reaches_callback _ "/img/cat.jpg" "yolov7"
    "ValueError" "bad tensor" rfl

/-- Every element of a nonempty list has modification time at most that
of Python's `max(..., key=mtime)` as computed by `pymaxMtime`. -/
theorem pymaxMtime_mem_le (hd : String × Int) (tl : List (String × Int)) :
    ∀ d ∈ hd :: tl, d.2 ≤ (pymaxMtime hd tl).2 := by
  induction tl generalizing hd with
  | nil =>
      intro d hm
      have h := List.mem_singleton.mp hm
      subst h
      exact le_refl _
  | cons a tl ih =>
      intro d hm
      have hstep : pymaxMtime hd (a :: tl) =
          pymaxMtime (if hd.2 < a.2 then a else hd) tl := rfl
      rw [hstep]
      have hhd : hd.2 ≤ (if hd.2 < a.2 then a else hd).2 := by split <;> omega
      have ha : a.2 ≤ (if hd.2 < a.2 then a else hd).2 := by split <;> omega
      have hbase : (if hd.2 < a.2 then a else hd).2 ≤
          (pymaxMtime (if hd.2 < a.2 then a else hd) tl).2 :=
        ih _ _ (List.mem_cons_self _ _)
      simp only [List.mem_cons] at hm
      rcases hm with h | h | h
      · exact le_trans (h ▸ hhd) hbase
      · exact le_trans (h ▸ ha) hbase
      · exact ih _ d (List.mem_cons_of_mem _ h)

/-- Claim C3: on exit code 0 with the deterministic path absent, if the
run directory has subdirectories and the most-recently-modified one
(Python `max` by mtime) contains the source's base name, the worker
schedules exactly the success hand-off carrying that fallback path; the
selected directory's mtime dominates every candidate's. -/
theorem detect_objects_fallback (env : DetectEnv)
    (input_image_path yolov7_dir stdout stderr : String)
    (hd : String × Int) (tl : List (String × Int))
    (hrun : env.run_result = RunResult.completed 0 stdout stderr)
    (hdet : env.path_exists
        (pjoin (pjoin (pjoin (pjoin yolov7_dir "runs") "detect") "GUI_exp")
          (basename input_image_path)) = false)
    (hsub : env.subdirs = some (hd :: tl))
    (hfb : env.path_exists
        (pjoin (pymaxMtime hd tl).1 (basename input_image_path)) = true) :
    detect_objects env input_image_path yolov7_dir =
      [UiEvent.postDetection
        (some (pjoin (pymaxMtime hd tl).1 (basename input_image_path))) true] ∧
    ∀ d ∈ hd :: tl, d.2 ≤ (pymaxMtime hd tl).2 := by
  refine ⟨?_, pymaxMtime_mem_le hd tl⟩
  unfold detect_objects find_latest_run_output
  rw [hrun, hsub]
  simp [hdet, hfb]

theorem detect_objects_fallback_witness :
    detect_objects
      { run_result := RunResult.completed 0 "" "",
        path_exists := fun p => p == "runs/exp7/cat.jpg",
        python_executable := "python3",
        subdirs := some [("runs/exp3", 5), ("runs/exp7", 9)] } "/img/cat.jpg" "yolov7" =
      [UiEvent.postDetection
        (some (pjoin (pymaxMtime ("runs/exp3", 5) [("runs/exp7", 9)]).1
          (basename "/img/cat.jpg"))) true] ∧
    ∀ d ∈ [("runs/exp3", (5 : Int)), ("runs/exp7", 9)],
      d.2 ≤ (pymaxMtime ("runs/exp3", 5) [("runs/exp7", 9)]).2 :=
  detect_objects_fallback _ "/img/cat.jpg" "yolov7" "" "" ("runs/exp3", 5)
    [("runs/exp7", 9)] rfl (by decide) rfl (by decide)

/-- Claim C7: triggering detection from `ImageSelected` (a remembered
source path that exists on disk, setup check passing) starts the worker
and, in the state handed to `thread.start()` — i.e. strictly before any
outcome can arrive — the result panel is already cleared and the
detect, browse and reset controls are already disabled, while the
source path and input panel are untouched. -/
theorem start_detection_thread_disables_and_clears (env : StartEnv)
    (yolov7_dir p : String) (s : GuiState)
    (h1 : s.input_image_path = some p)
    (h2 : env.file_exists p = true)
    (h3 : (check_yolov7_setup env.setup yolov7_dir).1 = true) :
    (start_detection_thread env yolov7_dir s).2.1 = true ∧
    (start_detection_thread env yolov7_dir s).1.result_slot = emptySlot ∧
    (start_detection_thread env yolov7_dir s).1.detect_button = BState.disabled ∧
    (start_detection_thread env yolov7_dir s).1.browse_button = BState.disabled ∧
    (start_detection_thread env yolov7_dir s).1.reset_button = BState.disabled ∧
    (start_detection_thread env yolov7_dir s).1.input_image_path = s.input_image_path ∧
    (start_detection_thread env yolov7_dir s).1.input_slot = s.input_slot := by
  unfold start_detection_thread
  rw [h1]
  simp [h2, h3]

theorem start_detection_thread_disables_and_clears_witness :
    (start_detection_thread startEnvOk "yolov7" selectedState).2.1 = true ∧
    (start_detection_thread startEnvOk "yolov7" selectedState).1.result_slot = emptySlot ∧
    (start_detection_thread startEnvOk "yolov7" selectedState).1.detect_button = BState.disabled ∧
    (start_detection_thread startEnvOk "yolov7" selectedState).1.browse_button = BState.disabled ∧
    (start_detection_thread startEnvOk "yolov7" selectedState).1.reset_button = BState.disabled ∧
    (start_detection_thread startEnvOk "yolov7" selectedState).1.input_image_path =
      selectedState.input_image_path ∧
    (start_detection_thread startEnvOk "yolov7" selectedState).1.input_slot =
      selectedState.input_slot :=
  start_detection_thread_disables_and_clears startEnvOk "yolov7" "/tmp/cat.jpg"
    selectedState rfl rfl rfl

/-- A failing setup check always shows at least one dialog, and every
dialog it shows is a warning. -/
theorem check_setup_fail_warns (e : SetupEnv) (d : String)
    (h : (check_yolov7_setup e d).1 = false) :
    (check_yolov7_setup e d).2 ≠ [] ∧
    ∀ n ∈ (check_yolov7_setup e d).2, n.kind = NotifKind.warning := by
  unfold check_yolov7_setup at h ⊢
  split_ifs at h ⊢ <;> simp_all

theorem check_setup_fail_warns_witness :
    (check_yolov7_setup ⟨false, false, false⟩ "yolov7").1 = false ∧
    ((check_yolov7_setup ⟨false, false, false⟩ "yolov7").2 ≠ [] ∧
     ∀ n ∈ (check_yolov7_setup ⟨false, false, false⟩ "yolov7").2,
       n.kind = NotifKind.warning) :=
  ⟨rfl, check_setup_fail_warns ⟨false, false, false⟩ "yolov7" rfl⟩

/-- Claim C10: when any trigger guard fails — no remembered source
path, the source file no longer on disk, or a failing setup re-check —
the trigger leaves the UI state exactly as it was, starts no worker,
and only shows at least one error or warning dialog. -/
theorem start_detection_thread_guard_noop (env : StartEnv)
    (yolov7_dir : String) (s : GuiState)
    (h : s.input_image_path = none ∨
         (∃ p, s.input_image_path = some p ∧ env.file_exists p = false) ∨
         (check_yolov7_setup env.setup yolov7_dir).1 = false) :
    (start_detection_thread env yolov7_dir s).1 = s ∧
    (start_detection_thread env yolov7_dir s).2.1 = false ∧
    (start_detection_thread env yolov7_dir s).2.2 ≠ [] ∧
    ∀ n ∈ (start_detection_thread env yolov7_dir s).2.2,
      n.kind = NotifKind.error ∨ n.kind = NotifKind.warning := by
  unfold start_detection_thread
  cases hin : s.input_image_path with
  | none =>
      refine ⟨rfl, rfl, by simp, ?_⟩
      intro n hn
      simp only [List.mem_singleton] at hn
      subst hn
      exact Or.inl rfl
  | some p =>
      dsimp only
      cases hex : env.file_exists p with
      | false =>
          refine ⟨rfl, rfl, by simp, ?_⟩
          intro n hn
          simp at hn
          subst hn
          exact Or.inl rfl
      | true =>
          have hsf : (check_yolov7_setup env.setup yolov7_dir).1 = false := by
            rcases h with h | ⟨q, hq, hexq⟩ | h
            · rw [h] at hin; cases hin
            · rw [hq] at hin
              injection hin with he
              subst he
              rw [hexq] at hex
              cases hex
            · exact h
          have hc := check_setup_fail_warns env.setup yolov7_dir hsf
          simp only [hsf]
          exact ⟨rfl, rfl, hc.1, fun n hn => Or.inr (hc.2 n hn)⟩

theorem start_detection_thread_guard_noop_witness :
    ((reset_ui selectedState true).input_image_path = none ∨
     (∃ p, (reset_ui selectedState true).input_image_path = some p ∧
        startEnvOk.file_exists p = false) ∨
     (check_yolov7_setup startEnvOk.setup "yolov7").1 = false) ∧
    ((start_detection_thread startEnvOk "yolov7" (reset_ui selectedState true)).1 =
        reset_ui selectedState true ∧
     (start_detection_thread startEnvOk "yolov7" (reset_ui selectedState true)).2.1 = false ∧
     (start_detection_thread startEnvOk "yolov7" (reset_ui selectedState true)).2.2 ≠ [] ∧
     ∀ n ∈ (start_detection_thread startEnvOk "yolov7" (reset_ui selectedState true)).2.2,
       n.kind = NotifKind.error ∨ n.kind = NotifKind.warning) :=
  ⟨Or.inl rfl,
   start_detection_thread_guard_noop startEnvOk "yolov7"
     (reset_ui selectedState true) (Or.inl rfl)⟩

/-- Unfolding of `round_aspect` (the `let`s inlined). -/
theorem round_aspect_def (q : ℚ) (key : ℕ → ℚ) :
    round_aspect q key =
      max (if key ((⌈q⌉).toNat) < key ((⌊q⌋).toNat) then (⌈q⌉).toNat
           else (⌊q⌋).toNat) 1 := rfl

/-- Whatever the tie-breaking key, `round_aspect q key` stays below any
positive integer bound dominating `q`. -/
theorem round_aspect_le {q : ℚ} {n : ℕ} (key : ℕ → ℚ)
    (hn : 1 ≤ n) (h : q ≤ (n : ℚ)) : round_aspect q key ≤ n := by
  have hc : ⌈q⌉ ≤ (n : ℤ) := Int.ceil_le.mpr (by exact_mod_cast h)
  have hf : ⌊q⌋ ≤ (n : ℤ) := le_trans (Int.floor_le_ceil q) hc
  have hc' : (⌈q⌉).toNat ≤ n := Int.toNat_le.mpr hc
  have hf' : (⌊q⌋).toNat ≤ n := Int.toNat_le.mpr hf
  rw [round_aspect_def]
  refine max_le ?_ hn
  split
  · exact hc'
  · exact hf'

/-- Whatever the tie-breaking key, `round_aspect q key` is within 1 of
`q` (it picks the floor or the ceiling, clamped to at least 1). -/
theorem round_aspect_close {q : ℚ} (key : ℕ → ℚ) (hq : 0 < q) :
    |((round_aspect q key : ℕ) : ℚ) - q| ≤ 1 := by
  have hf0 : (0 : ℤ) ≤ ⌊q⌋ := Int.floor_nonneg.mpr hq.le
  have hc0 : (0 : ℤ) ≤ ⌈q⌉ := le_trans hf0 (Int.floor_le_ceil q)
  have hfq : (((⌊q⌋).toNat : ℕ) : ℚ) = ((⌊q⌋ : ℤ) : ℚ) := by
    exact_mod_cast Int.toNat_of_nonneg hf0
  have hcq : (((⌈q⌉).toNat : ℕ) : ℚ) = ((⌈q⌉ : ℤ) : ℚ) := by
    exact_mod_cast Int.toNat_of_nonneg hc0
  have hfl : |((⌊q⌋ : ℤ) : ℚ) - q| ≤ 1 := by
    have h1 := Int.floor_le q
    have h2 := Int.lt_floor_add_one q
    rw [abs_le]
    constructor <;> linarith
  have hcl : |((⌈q⌉ : ℤ) : ℚ) - q| ≤ 1 := by
    have h1 := Int.le_ceil q
    have h2 := Int.ceil_lt_add_one q
    rw [abs_le]
    constructor <;> linarith
  rw [round_aspect_def]
  have hmq : |(((if key ((⌈q⌉).toNat) < key ((⌊q⌋).toNat) then (⌈q⌉).toNat
      else (⌊q⌋).toNat) : ℕ) : ℚ) - q| ≤ 1 := by
    split
    · rw [hcq]; exact hcl
    · rw [hfq]; exact hfl
  set m : ℕ := if key ((⌈q⌉).toNat) < key ((⌊q⌋).toNat) then (⌈q⌉).toNat
      else (⌊q⌋).toNat with hm
  rcases Nat.eq_zero_or_pos m with h0 | h1
  · have hq1 : q ≤ 1 := by
      rw [h0] at hmq
      rw [show (((0 : ℕ) : ℚ) - q) = -q by push_cast; ring, abs_neg,
        abs_of_pos hq] at hmq
      exact hmq
    rw [h0]
    rw [show max 0 1 = 1 from rfl]
    rw [show ((1 : ℕ) : ℚ) = 1 by norm_num]
    rw [abs_le]
    constructor <;> linarith
  · rw [Nat.max_eq_left h1]
    exact hmq

/-- `thumbnail_size` when the image already fits in the box. -/
theorem thumbnail_size_of_fits {w h x y : ℕ} (hc : w ≤ x ∧ h ≤ y) :
    thumbnail_size w h x y = (w, h) := by
  unfold thumbnail_size
  rw [if_pos hc]

/-- `thumbnail_size` in the branch where the box is proportionally at
least as wide as the image: the height is pinned to the box height. -/
theorem thumbnail_size_of_wide {w h x y : ℕ} (hc : ¬(w ≤ x ∧ h ≤ y))
    (hb : (w : ℚ) / h ≤ (x : ℚ) / y) :
    thumbnail_size w h x y =
      (round_aspect ((y : ℚ) * ((w : ℚ) / h))
        (fun n => |(w : ℚ) / h - (n : ℚ) / y|), y) := by
  unfold thumbnail_size
  rw [if_neg hc]
  dsimp only
  rw [if_pos hb]

/-- `thumbnail_size` in the branch where the box is proportionally
narrower than the image: the width is pinned to the box width. -/
theorem thumbnail_size_of_tall {w h x y : ℕ} (hc : ¬(w ≤ x ∧ h ≤ y))
    (hb : ¬((w : ℚ) / h ≤ (x : ℚ) / y)) :
    thumbnail_size w h x y =
      (x, round_aspect ((x : ℚ) / ((w : ℚ) / h))
        (fun n => if n = 0 then 0 else |(w : ℚ) / h - (x : ℚ) / (n : ℚ)|)) := by
  unfold thumbnail_size
  rw [if_neg hc]
  dsimp only
  rw [if_neg hb]

/-- The thumbnail always fits inside the requested box. -/
theorem thumbnail_size_fits {w h x y : ℕ} (hw : 1 ≤ w) (hh : 1 ≤ h)
    (hx : 1 ≤ x) (hy : 1 ≤ y) :
    (thumbnail_size w h x y).1 ≤ x ∧ (thumbnail_size w h x y).2 ≤ y := by
  have hwq : (0 : ℚ) < w := by exact_mod_cast hw
  have hhq : (0 : ℚ) < h := by exact_mod_cast hh
  have hxq : (0 : ℚ) < x := by exact_mod_cast hx
  have hyq : (0 : ℚ) < y := by exact_mod_cast hy
  by_cases hc : w ≤ x ∧ h ≤ y
  · rw [thumbnail_size_of_fits hc]
    exact hc
  · by_cases hb : (w : ℚ) / h ≤ (x : ℚ) / y
    · rw [thumbnail_size_of_wide hc hb]
      refine ⟨?_, le_refl y⟩
      refine round_aspect_le (fun n => |(w : ℚ) / h - (n : ℚ) / y|) hx ?_
      rw [div_le_div_iff₀ hhq hyq] at hb
      rw [mul_comm, div_mul_eq_mul_div, div_le_iff₀ hhq]
      linarith
    · rw [thumbnail_size_of_tall hc hb]
      refine ⟨le_refl x, ?_⟩
      push_neg at hb
      refine round_aspect_le
        (fun n => if n = 0 then 0 else |(w : ℚ) / h - (x : ℚ) / (n : ℚ)|) hy ?_
      rw [div_le_iff₀ (div_pos hwq hhq)]
      rw [div_lt_div_iff₀ hyq hhq] at hb
      rw [mul_comm, div_mul_eq_mul_div, le_div_iff₀ hhq]
      linarith

/-- The thumbnail preserves the source aspect ratio up to integer
rounding: the cross-multiplied difference is at most `max w h`. -/
theorem thumbnail_size_ratio {w h x y : ℕ} (hw : 1 ≤ w) (hh : 1 ≤ h)
    (hx : 1 ≤ x) (hy : 1 ≤ y) :
    |((thumbnail_size w h x y).1 : ℚ) * h - w * ((thumbnail_size w h x y).2 : ℚ)| ≤
      max (w : ℚ) (h : ℚ) := by
  have hwq : (0 : ℚ) < w := by exact_mod_cast hw
  have hhq : (0 : ℚ) < h := by exact_mod_cast hh
  have hxq : (0 : ℚ) < x := by exact_mod_cast hx
  have hyq : (0 : ℚ) < y := by exact_mod_cast hy
  by_cases hc : w ≤ x ∧ h ≤ y
  · rw [thumbnail_size_of_fits hc]
    rw [show ((w : ℚ) * h - w * h) = 0 by ring, abs_zero]
    exact le_trans hwq.le (le_max_left _ _)
  · by_cases hb : (w : ℚ) / h ≤ (x : ℚ) / y
    · rw [thumbnail_size_of_wide hc hb]
      have hq : (0 : ℚ) < (y : ℚ) * ((w : ℚ) / h) :=
        mul_pos hyq (div_pos hwq hhq)
      have hclose := round_aspect_close
        (fun n => |(w : ℚ) / h - (n : ℚ) / y|) hq
      set a : ℕ := round_aspect ((y : ℚ) * ((w : ℚ) / h))
        (fun n => |(w : ℚ) / h - (n : ℚ) / y|) with ha
      have hcancel : ((w : ℚ) / h) * h = w := div_mul_cancel₀ _ (ne_of_gt hhq)
      have key1 : ((a : ℚ) - (y : ℚ) * ((w : ℚ) / h)) * h =
          (a : ℚ) * h - (w : ℚ) * y := by
        rw [sub_mul, mul_assoc, hcancel]
        ring
      calc |((a : ℚ)) * h - (w : ℚ) * y|
          = |((a : ℚ) - (y : ℚ) * ((w : ℚ) / h))| * h := by
            rw [← key1, abs_mul, abs_of_pos hhq]
        _ ≤ 1 * h := mul_le_mul_of_nonneg_right hclose hhq.le
        _ = h := one_mul _
        _ ≤ max (w : ℚ) h := le_max_right _ _
    · rw [thumbnail_size_of_tall hc hb]
      have hq : (0 : ℚ) < (x : ℚ) / ((w : ℚ) / h) :=
        div_pos hxq (div_pos hwq hhq)
      have hclose := round_aspect_close
        (fun n => if n = 0 then 0 else |(w : ℚ) / h - (x : ℚ) / (n : ℚ)|) hq
      set b : ℕ := round_aspect ((x : ℚ) / ((w : ℚ) / h))
        (fun n => if n = 0 then 0 else |(w : ℚ) / h - (x : ℚ) / (n : ℚ)|) with hbdef
      have hcancel : ((x : ℚ) / ((w : ℚ) / h)) * w = (x : ℚ) * h := by
        rw [div_div_eq_mul_div, div_mul_cancel₀ _ (ne_of_gt hwq)]
      have key2 : (((x : ℚ) / ((w : ℚ) / h)) - (b : ℚ)) * w =
          (x : ℚ) * h - (w : ℚ) * b := by
        rw [sub_mul, hcancel]
        ring
      calc |((x : ℚ)) * h - (w : ℚ) * b|
          = |(((x : ℚ) / ((w : ℚ) / h)) - (b : ℚ))| * w := by
            rw [← key2, abs_mul, abs_of_pos hwq]
        _ ≤ 1 * w := by
            refine mul_le_mul_of_nonneg_right ?_ hwq.le
            rw [abs_sub_comm]
            exact hclose
        _ = w := one_mul _
        _ ≤ max (w : ℚ) h := le_max_left _ _

/-- Claim C5: for any loaded image and any container at or above the
20-pixel minimum threshold, the rendered bitmap fits inside the
container minus the fixed 10-pixel margin and keeps the unscaled
source's width/height ratio up to integer rounding (cross-multiplied
difference at most `max width height`, i.e. off by less than one pixel
in the rounded dimension). -/
theorem update_label_image_fits_and_keeps_ratio (slot : Slot) (img : Img)
    (width height : Nat)
    (horig : slot.original_image = some img)
    (hw : 20 ≤ width) (hh : 20 ≤ height)
    (hiw : 1 ≤ img.width) (hih : 1 ≤ img.height) :
    ∃ bmp : Bitmap,
      (update_label_image slot width height).image = some bmp ∧
      bmp.width ≤ width - 10 ∧ bmp.height ≤ height - 10 ∧
      |(bmp.width : ℚ) * (img.height : ℚ) - (img.width : ℚ) * (bmp.height : ℚ)| ≤
        max (img.width : ℚ) (img.height : ℚ) := by
  have hbx : 1 ≤ width - 10 := by omega
  have hby : 1 ≤ height - 10 := by omega
  have hfits := thumbnail_size_fits hiw hih hbx hby
  have hratio := thumbnail_size_ratio hiw hih hbx hby
  refine ⟨⟨(thumbnail_size img.width img.height (width - 10) (height - 10)).1,
           (thumbnail_size img.width img.height (width - 10) (height - 10)).2⟩,
         ?_, hfits.1, hfits.2, hratio⟩
  simp only [update_label_image, horig]
  rw [if_neg (by omega : ¬(width < 20 ∨ height < 20))]

theorem update_label_image_fits_and_keeps_ratio_witness :
    (({ image := none, original_image := some { width := 100, height := 50 } } :
        Slot).original_image = some { width := 100, height := 50 } ∧
      20 ≤ 120 ∧ 20 ≤ 70 ∧
      1 ≤ ({ width := 100, height := 50 } : Img).width ∧
      1 ≤ ({ width := 100, height := 50 } : Img).height) ∧
    ∃ bmp : Bitmap,
      (update_label_image
          { image := none, original_image := some { width := 100, height := 50 } }
          120 70).image = some bmp ∧
      bmp.width ≤ 120 - 10 ∧ bmp.height ≤ 70 - 10 ∧
      |(bmp.width : ℚ) * (({ width := 100, height := 50 } : Img).height : ℚ) -
          (({ width := 100, height := 50 } : Img).width : ℚ) * (bmp.height : ℚ)| ≤
        max (({ width := 100, height := 50 } : Img).width : ℚ)
          (({ width := 100, height := 50 } : Img).height : ℚ) :=
  ⟨⟨rfl, by decide, by decide, by decide, by decide⟩,
   update_label_image_fits_and_keeps_ratio _ _ 120 70 rfl (by decide) (by decide)
     (by decide) (by decide)⟩

/-- Claim C1, refuted on the code: after a started run whose external
process exits with code 1, the worker schedules only the error dialog
(`update_gui_post_detection` is never scheduled), so after the UI
thread drains all scheduled calls the browse, reset and detect controls
are still disabled — the user is left with controls disabled. -/
theorem nonzero_exit_leaves_controls_disabled :
    (start_detection_thread startEnvOk "yolov7" selectedState).2.1 = true ∧
    detect_objects failRunEnv "/tmp/cat.jpg" "yolov7" =
      [UiEvent.showError "Detection Error"
        (detectionErrorMessage 1 "Traceback\nRuntimeError: boom")] ∧
    (run_ui_events uiEnvStd (start_detection_thread startEnvOk "yolov7" selectedState).1
        (detect_objects failRunEnv "/tmp/cat.jpg" "yolov7")).1.browse_button =
      BState.disabled ∧
    (run_ui_events uiEnvStd (start_detection_thread startEnvOk "yolov7" selectedState).1
        (detect_objects failRunEnv "/tmp/cat.jpg" "yolov7")).1.reset_button =
      BState.disabled ∧
    (run_ui_events uiEnvStd (start_detection_thread startEnvOk "yolov7" selectedState).1
        (detect_objects failRunEnv "/tmp/cat.jpg" "yolov7")).1.detect_button =
      BState.disabled :=
  ⟨rfl, rfl, rfl, rfl, rfl⟩
